import Mathlib

/-!
# Verification of the multi-tenancy syncer / scheduler-cache specification

Shallow embedding of the parts of `sigs.k8s.io/multi-tenancy` that the
specification's claims are about:

* the experimental scheduler cache's slice arithmetic
  (`experiment/pkg/scheduler/cache/namespace.go`);
* the scheduler cache's `Cluster.AddNamespace` (only its test is in the
  repository snapshot; the operation itself is modelled from the spec);
* the namespace DWS reconciler (`pkg/syncer/resources/namespace`,
  functions `Reconcile`, `reconcileNamespaceCreate`,
  `reconcileNamespaceUpdate`, `reconcileNamespaceRemove`);
* the service patroller's orphan-deletion pass
  (`pkg/syncer/resources/service/checker.go`, `PatrollerDo`);
* the HNC object admission validator for propagated objects
  (`internal/validators/object.go`, functions `handleInherited` and
  `isDeletingNS`).

Kubernetes `resource.Quantity` values are embedded as `Nat` (the code only
ever uses `Quantity.Value()`, an integer, and `Quantity.Cmp`).  Go maps are
embedded as association lists; the Go code iterates over maps in arbitrary
order, and every property proved below is order-insensitive.  Calls to
collaborators that are outside the analysed files (listers, clients,
conversion helpers) are embedded as explicit oracle parameters describing
the observable outcome of the call.
-/

namespace MultiTenancy

instance {ε α : Type} [DecidableEq ε] [DecidableEq α] : DecidableEq (Except ε α) := by
  intro a b
  cases a with
  | error e1 =>
    cases b with
    | error e2 =>
      exact if h : e1 = e2 then isTrue (by rw [h])
        else isFalse (by intro hc; cases hc; exact h rfl)
    | ok v2 => exact isFalse (by intro hc; cases hc)
  | ok v1 =>
    cases b with
    | error e2 => exact isFalse (by intro hc; cases hc)
    | ok v2 =>
      exact if h : v1 = v2 then isTrue (by rw [h])
        else isFalse (by intro hc; cases hc; exact h rfl)

/-- Association-list lookup, the embedding of a Go map read (`m[k]`,
first matching key wins; our lists play the role of maps). -/
def alookup {α : Type} : List (String × α) → String → Option α
  | [], _ => none
  | (k, v) :: rest, key => if k = key then some v else alookup rest key

theorem stringAppendAssoc (a b c : String) : (a ++ b) ++ c = a ++ (b ++ c) := by
  apply String.ext
  simp [List.append_assoc]

/-- Go map read with the zero value as default (`m[k]` when `k` is absent
yields `""` for string-valued maps). -/
def lookupD (l : List (String × String)) (k : String) : String :=
  (alookup l k).getD ""

/-! ## Scheduler cache: slices (`experiment/pkg/scheduler/cache/namespace.go`) -/

/-- `v1.ResourceList`: resource name to integral quantity
(`Quantity.Value()`). -/
abbrev ResourceList : Type := List (String × Nat)

/-- `math.Ceil(float64(q) / float64(v))` for natural `q` and positive `v`. -/
def ceilNat (q v : Nat) : Nat := (q + v - 1) / v

/-- The `for k, v := range quotaSlice` loop body of `GetLeastFitSliceNum`:
per-entry error checks, accumulating the running maximum of
`ceil(quota[k]/v)`. -/
def sliceNumLoop (quota : ResourceList) : ResourceList → Except String Nat
  | [] => Except.ok 0
  | (k, v) :: rest =>
    match alookup quota k with
    | none => Except.error ("quota slice resouce " ++ k ++ " is missing from quota")
    | some q =>
      if v = 0 then Except.error ("quota slice resource " ++ k ++ " has value of 0")
      else if q < v then Except.error ("quota slice is larger than quota for resource " ++ k)
      else
        match sliceNumLoop quota rest with
        | Except.error e => Except.error e
        | Except.ok num => Except.ok (max (ceilNat q v) num)

/-- `GetLeastFitSliceNum(quota, quotaSlice)`.  After the loop, the Go code
checks the residue of `more` (quota keys never seen in `quotaSlice`) and
fails when it is non-empty. -/
def GetLeastFitSliceNum (quota quotaSlice : ResourceList) : Except String Nat :=
  match sliceNumLoop quota quotaSlice with
  | Except.error e => Except.error e
  | Except.ok num =>
    if quota.all (fun p => (alookup quotaSlice p.1).isSome) then Except.ok num
    else Except.error "quota slice has missing resouces"

/-- `Placement{cluster, num}`. -/
structure Placement where
  cluster : String
  num : Nat
deriving DecidableEq, Repr

/-- Scheduler-cache `Namespace{owner, name, labels, quota, quotaSlice,
schedule}`. -/
structure SchedNamespace where
  owner : String
  name : String
  labels : List (String × String)
  quota : ResourceList
  quotaSlice : ResourceList
  schedule : List Placement

/-- `Namespace.GetTotalSlices()`: `t, _ := GetLeastFitSliceNum(...)` — the
error is discarded and the accompanying `0` is returned. -/
def SchedNamespace.GetTotalSlices (n : SchedNamespace) : Nat :=
  match GetLeastFitSliceNum n.quota n.quotaSlice with
  | Except.ok t => t
  | Except.error _ => 0

/-- A `quotaSlice` entry on which the loop body of `GetLeastFitSliceNum`
errors out: key missing from quota, zero value, or value above quota. -/
def entryBad (quota : ResourceList) (p : String × Nat) : Bool :=
  match alookup quota p.1 with
  | none => true
  | some q => if p.2 = 0 then true else if q < p.2 then true else false

/-- The reference value of the slice-count loop: the maximum over the
`quotaSlice` entries of `ceil(quota[k] / v)`. -/
def maxSliceFold (quota : ResourceList) (quotaSlice : ResourceList) : Nat :=
  quotaSlice.foldr (fun p acc => max (ceilNat ((alookup quota p.1).getD 0) p.2) acc) 0

theorem sliceNumLoop_ok (quota : ResourceList) :
    ∀ qs : List (String × Nat), qs.any (entryBad quota) = false →
      sliceNumLoop quota qs = Except.ok (maxSliceFold quota qs) := by
  intro qs
  induction qs with
  | nil => intro _; rfl
  | cons p rest ih =>
    intro h
    rw [List.any_cons, Bool.or_eq_false_iff] at h
    obtain ⟨hp, hrest⟩ := h
    obtain ⟨k, v⟩ := p
    cases hq : alookup quota k with
    | none => simp [entryBad, hq] at hp
    | some q =>
      by_cases hv : v = 0
      · simp [entryBad, hq, hv] at hp
      · by_cases hlt : q < v
        · simp [entryBad, hq, hv, hlt] at hp
        · simp only [sliceNumLoop, hq, if_neg hv, if_neg hlt, ih hrest]
          simp [maxSliceFold, hq]

theorem sliceNumLoop_error (quota : ResourceList) :
    ∀ qs : List (String × Nat), qs.any (entryBad quota) = true →
      ∃ e, sliceNumLoop quota qs = Except.error e := by
  intro qs
  induction qs with
  | nil => intro h; simp at h
  | cons p rest ih =>
    intro h
    obtain ⟨k, v⟩ := p
    cases hq : alookup quota k with
    | none =>
      exact ⟨"quota slice resouce " ++ k ++ " is missing from quota",
        by simp only [sliceNumLoop, hq]⟩
    | some q =>
      by_cases hv : v = 0
      · exact ⟨"quota slice resource " ++ k ++ " has value of 0",
          by simp only [sliceNumLoop, hq, if_pos hv]⟩
      · by_cases hlt : q < v
        · exact ⟨"quota slice is larger than quota for resource " ++ k,
            by simp only [sliceNumLoop, hq, if_neg hv, if_pos hlt]⟩
        · have hrest : rest.any (entryBad quota) = true := by
            rw [List.any_cons] at h
            rcases Bool.or_eq_true_iff.mp h with hp | hr
            · simp [entryBad, hq, hv, hlt] at hp
            · exact hr
          obtain ⟨e, he⟩ := ih hrest
          refine ⟨e, ?_⟩
          simp only [sliceNumLoop, hq, if_neg hv, if_neg hlt, he]

theorem entryBad_eq_true_iff (quota : ResourceList) (p : String × Nat) :
    entryBad quota p = true ↔
      alookup quota p.1 = none ∨ p.2 = 0 ∨
        ∃ q, alookup quota p.1 = some q ∧ q < p.2 := by
  unfold entryBad
  cases hq : alookup quota p.1 with
  | none => simp
  | some q =>
    by_cases hv : p.2 = 0
    · simp [hv]
    · by_cases hlt : q < p.2
      · simp [hv, hlt]
      · simp [hv, hlt]

/-- C3: for every quota and quotaSlice whose resource-key sets are
identical, in which every quotaSlice value is nonzero and no quotaSlice
value exceeds the corresponding quota value, `Namespace.GetTotalSlices()`
returns the maximum over all resources `r` of
`ceil(quota[r] / quotaSlice[r])` (here `maxSliceFold`). -/
theorem C3_total_slices_is_max_ceil (n : SchedNamespace)
    (hkeys1 : ∀ p ∈ n.quotaSlice, (alookup n.quota p.1).isSome = true)
    (hkeys2 : ∀ p ∈ n.quota, (alookup n.quotaSlice p.1).isSome = true)
    (hnz : ∀ p ∈ n.quotaSlice, p.2 ≠ 0)
    (hle : ∀ p ∈ n.quotaSlice, p.2 ≤ (alookup n.quota p.1).getD 0) :
    n.GetTotalSlices = maxSliceFold n.quota n.quotaSlice := by
  have hany : n.quotaSlice.any (entryBad n.quota) = false := by
    rw [List.any_eq_false]
    intro p hp
    intro hbad
    rcases (entryBad_eq_true_iff n.quota p).mp hbad with hnone | hz | ⟨q, hq2, hlt⟩
    · have := hkeys1 p hp
      rw [hnone] at this
      simp at this
    · exact hnz p hp hz
    · have := hle p hp
      rw [hq2] at this
      simp at this
      omega
  have hall : n.quota.all (fun p => (alookup n.quotaSlice p.1).isSome) = true := by
    rw [List.all_eq_true]
    exact hkeys2
  unfold SchedNamespace.GetTotalSlices GetLeastFitSliceNum
  rw [sliceNumLoop_ok n.quota n.quotaSlice hany, hall]
  simp

/-- Witness for C3 at a concrete input: quota `{cpu: 4, memory: 3}`,
quotaSlice `{cpu: 2, memory: 2}` gives `max ⌈4/2⌉ ⌈3/2⌉ = 2` slices. -/
theorem C3_total_slices_is_max_ceil_witness :
    SchedNamespace.GetTotalSlices
      ⟨"tenant", "ns", [], [("cpu", 4), ("memory", 3)], [("cpu", 2), ("memory", 2)], []⟩ = 2 :=
  (C3_total_slices_is_max_ceil
      ⟨"tenant", "ns", [], [("cpu", 4), ("memory", 3)], [("cpu", 2), ("memory", 2)], []⟩
      (by decide) (by decide) (by decide) (by decide)).trans (by decide)

/-- Counterexample to C4 as stated: `quota = {cpu:1, memory:1}`,
`quotaSlice = {cpu:1}` triggers none of the three spec-listed failure
modes (every quotaSlice resource is present in quota, nonzero, and no
larger than quota), yet `GetLeastFitSliceNum` returns an error because
`memory` is missing from the quotaSlice. -/
theorem C4_counterexample :
    GetLeastFitSliceNum [("cpu", 1), ("memory", 1)] [("cpu", 1)] =
        Except.error "quota slice has missing resouces" ∧
      (∀ p ∈ ([("cpu", 1)] : ResourceList),
        (alookup [("cpu", 1), ("memory", 1)] p.1).isSome = true ∧ p.2 ≠ 0 ∧
          p.2 ≤ (alookup [("cpu", 1), ("memory", 1)] p.1).getD 0) := by
  constructor
  · rfl
  · decide

/-- C4 (amended): `GetLeastFitSliceNum(quota, quotaSlice)` returns an
error exactly when one of FOUR failure modes holds — the three
spec-listed ones (a quotaSlice resource missing from quota, a
zero-valued quotaSlice dimension, a quotaSlice value larger than the
corresponding quota value) or the undocumented fourth mode: a quota
resource missing from quotaSlice. -/
theorem C4_amended_error_iff (quota quotaSlice : ResourceList) :
    (∃ e, GetLeastFitSliceNum quota quotaSlice = Except.error e) ↔
      ((∃ p ∈ quotaSlice, alookup quota p.1 = none) ∨
       (∃ p ∈ quotaSlice, p.2 = 0) ∨
       (∃ p ∈ quotaSlice, ∃ q, alookup quota p.1 = some q ∧ q < p.2) ∨
       (∃ p ∈ quota, alookup quotaSlice p.1 = none)) := by
  have hbridge : quotaSlice.any (entryBad quota) = true ↔
      ((∃ p ∈ quotaSlice, alookup quota p.1 = none) ∨
       (∃ p ∈ quotaSlice, p.2 = 0) ∨
       (∃ p ∈ quotaSlice, ∃ q, alookup quota p.1 = some q ∧ q < p.2)) := by
    rw [List.any_eq_true]
    constructor
    · rintro ⟨p, hp, hbad⟩
      rcases (entryBad_eq_true_iff quota p).mp hbad with h1 | h2 | h3
      · exact Or.inl ⟨p, hp, h1⟩
      · exact Or.inr (Or.inl ⟨p, hp, h2⟩)
      · exact Or.inr (Or.inr ⟨p, hp, h3⟩)
    · rintro (⟨p, hp, h1⟩ | ⟨p, hp, h2⟩ | ⟨p, hp, h3⟩)
      · exact ⟨p, hp, (entryBad_eq_true_iff quota p).mpr (Or.inl h1)⟩
      · exact ⟨p, hp, (entryBad_eq_true_iff quota p).mpr (Or.inr (Or.inl h2))⟩
      · exact ⟨p, hp, (entryBad_eq_true_iff quota p).mpr (Or.inr (Or.inr h3))⟩
  have hbridge2 : quota.all (fun p => (alookup quotaSlice p.1).isSome) = false ↔
      (∃ p ∈ quota, alookup quotaSlice p.1 = none) := by
    rw [← Bool.not_eq_true, List.all_eq_true]
    push_neg
    constructor
    · rintro ⟨p, hp, hns⟩
      refine ⟨p, hp, ?_⟩
      cases halo : alookup quotaSlice p.1 with
      | none => rfl
      | some v => rw [halo] at hns; simp at hns
    · rintro ⟨p, hp, hnone⟩
      exact ⟨p, hp, by rw [hnone]; simp⟩
  cases hA : quotaSlice.any (entryBad quota) with
  | true =>
    obtain ⟨e, he⟩ := sliceNumLoop_error quota quotaSlice hA
    constructor
    · intro _
      rcases hbridge.mp hA with h1 | h2 | h3
      · exact Or.inl h1
      · exact Or.inr (Or.inl h2)
      · exact Or.inr (Or.inr (Or.inl h3))
    · intro _
      exact ⟨e, by unfold GetLeastFitSliceNum; rw [he]⟩
  | false =>
    have hok := sliceNumLoop_ok quota quotaSlice hA
    cases hB : quota.all (fun p => (alookup quotaSlice p.1).isSome) with
    | true =>
      constructor
      · rintro ⟨e, he⟩
        unfold GetLeastFitSliceNum at he
        rw [hok, hB] at he
        simp at he
      · rintro (h1 | h2 | h3 | h4)
        · exact absurd (hbridge.mpr (Or.inl h1)) (by rw [hA]; simp)
        · exact absurd (hbridge.mpr (Or.inr (Or.inl h2))) (by rw [hA]; simp)
        · exact absurd (hbridge.mpr (Or.inr (Or.inr h3))) (by rw [hA]; simp)
        · exact absurd (hbridge2.mpr h4) (by rw [hB]; simp)
    | false =>
      constructor
      · intro _
        exact Or.inr (Or.inr (Or.inr (hbridge2.mp hB)))
      · intro _
        refine ⟨"quota slice has missing resouces", ?_⟩
        unfold GetLeastFitSliceNum
        rw [hok, hB]
        simp

/-- Witness for C4 (amended) at a concrete input: a zero-valued
quotaSlice dimension produces an error. -/
theorem C4_amended_error_iff_witness :
    ∃ e, GetLeastFitSliceNum [("cpu", 2)] [("cpu", 0)] = Except.error e :=
  (C4_amended_error_iff [("cpu", 2)] [("cpu", 0)]).mpr
    (Or.inr (Or.inl ⟨("cpu", 0), by decide, rfl⟩))

/-- C9: whenever `GetLeastFitSliceNum` returns an error (including the
undocumented quota-resource-missing-from-quotaSlice case),
`Namespace.GetTotalSlices()` discards the error and returns `0`. -/
theorem C9_total_slices_discards_error (n : SchedNamespace) (e : String)
    (h : GetLeastFitSliceNum n.quota n.quotaSlice = Except.error e) :
    n.GetTotalSlices = 0 := by
  unfold SchedNamespace.GetTotalSlices
  rw [h]

/-- Witness for C9 at the undocumented error case: quota
`{cpu:1, memory:1}`, quotaSlice `{cpu:1}` yields total slices `0`. -/
theorem C9_total_slices_discards_error_witness :
    SchedNamespace.GetTotalSlices
      ⟨"tenant", "ns", [], [("cpu", 1), ("memory", 1)], [("cpu", 1)], []⟩ = 0 :=
  C9_total_slices_discards_error
    ⟨"tenant", "ns", [], [("cpu", 1), ("memory", 1)], [("cpu", 1)], []⟩
    "quota slice has missing resouces" rfl

/-! ## Scheduler cache: `Cluster` and `AddNamespace`

`cluster.go` itself is not part of the repository snapshot; only its unit
test (`TestAddNamespace`, `TestRemoveNamespace`, `TestDeepCopy`) is.  The
operation is therefore modelled from the spec (§4.6) and validated below
against the rows of `TestAddNamespace`. -/

/-- `Slice{owner, unit, cluster}`; immutable after creation. -/
structure Slice where
  owner : String
  unit : ResourceList
  cluster : String
deriving DecidableEq, Repr

/-- Scheduler-cache `Cluster{name, labels, capacity, alloc, allocItems}`
(the `pods` map is irrelevant to the claims about `AddNamespace` and
omitted). -/
structure SchedCluster where
  name : String
  labels : List (String × String)
  capacity : ResourceList
  alloc : ResourceList
  allocItems : List (String × List Slice)
deriving DecidableEq, Repr

/-- Modelled from the spec: `NewCluster(name, labels, capacity)` — the
constructor is in the missing `cluster.go`; `TestAddNamespace` compares a
fresh cluster's `alloc` against explicit zeroes for each capacity key, so
the initial allocation is zero on every capacity resource. -/
def NewCluster (name : String) (labels : List (String × String))
    (capacity : ResourceList) : SchedCluster :=
  ⟨name, labels, capacity, capacity.map (fun p => (p.1, 0)), []⟩

/-- Add quantity `v` of resource `k` into the allocation list. -/
def rlAddOne (a : ResourceList) (k : String) (v : Nat) : ResourceList :=
  match alookup a k with
  | some _ => a.map (fun p => if p.1 = k then (p.1, p.2 + v) else p)
  | none => a ++ [(k, v)]

/-- Componentwise sum of two resource lists. -/
def rlAdd (a b : ResourceList) : ResourceList :=
  b.foldl (fun acc p => rlAddOne acc p.1 p.2) a

/-- Componentwise `a ≤ b` (a key of `a` missing from `b` counts as `b`
having zero of it). -/
def rlLeq (a b : ResourceList) : Bool :=
  a.all (fun p => p.2 ≤ (alookup b p.1).getD 0)

/-- Modelled from the spec: `Cluster.AddNamespace(ns, slices)` — the
implementation is in the missing `cluster.go`.  Spec §4.6: all slices
must carry this cluster's name; every resource key in every slice must
exist in capacity; `alloc + Σ unit ≤ capacity` componentwise; a duplicate
add (namespace already present) fails; on any violation return an error
and leave the state untouched; on success extend `allocItems[ns]` and
bump `alloc`.  The post-call cluster state is returned alongside the
outcome. -/
def AddNamespace (c : SchedCluster) (ns : String) (slices : List Slice) :
    Except String Unit × SchedCluster :=
  if slices.any (fun s => s.cluster != c.name) then
    (Except.error ("slice does not belong to cluster " ++ c.name), c)
  else if slices.any (fun s => s.unit.any (fun p => (alookup c.capacity p.1).isNone)) then
    (Except.error "slice has resource not in cluster capacity", c)
  else if (alookup c.allocItems ns).isSome then
    (Except.error ("namespace " ++ ns ++ " is already added"), c)
  else
    let newAlloc := slices.foldl (fun acc s => rlAdd acc s.unit) c.alloc
    if rlLeq newAlloc c.capacity then
      (Except.ok (), { c with alloc := newAlloc, allocItems := c.allocItems ++ [(ns, slices)] })
    else
      (Except.error "exceeding cluster capacity", c)

/-- The capacity of `TestAddNamespace` (`cpu: 2000M, memory: 4Gi`),
with cpu in units of `M` and memory in units of `Gi`. -/
def testCapacity : ResourceList := [("cpu", 2000), ("memory", 4)]

/-- The default slice of `TestAddNamespace` (`cpu: 500M, memory: 1Gi`). -/
def testSlice : Slice := ⟨"testnamespace", [("cpu", 500), ("memory", 1)], "testcluster"⟩

/-- `TestAddNamespace` row "Succeed to add one slice". -/
theorem addNamespace_one_slice_row :
    (AddNamespace (NewCluster "testcluster" [] testCapacity) "testnamespace" [testSlice]).1 =
        Except.ok () ∧
      (AddNamespace (NewCluster "testcluster" [] testCapacity) "testnamespace" [testSlice]).2.alloc =
        [("cpu", 500), ("memory", 1)] := by
  decide

/-- `TestAddNamespace` row "Fail to add due to exceeding capacity with
multiple allocItems": five 500M/1Gi slices exceed 2000M/4Gi, and `alloc`
stays at zero. -/
theorem addNamespace_exceed_capacity_row :
    (AddNamespace (NewCluster "testcluster" [] testCapacity) "testnamespace"
        [testSlice, testSlice, testSlice, testSlice, testSlice]).1 =
        Except.error "exceeding cluster capacity" ∧
      (AddNamespace (NewCluster "testcluster" [] testCapacity) "testnamespace"
        [testSlice, testSlice, testSlice, testSlice, testSlice]).2.alloc =
        [("cpu", 0), ("memory", 0)] := by
  decide

/-- `TestAddNamespace` row "Fail due to unknown resource". -/
theorem addNamespace_unknown_resource_row :
    (AddNamespace (NewCluster "testcluster" [] testCapacity) "testnamespace"
        [⟨"testnamespace", [("cpu", 500), ("memory", 1), ("unknown", 1)], "testcluster"⟩]).1 =
        Except.error "slice has resource not in cluster capacity" ∧
      (AddNamespace (NewCluster "testcluster" [] testCapacity) "testnamespace"
        [⟨"testnamespace", [("cpu", 500), ("memory", 1), ("unknown", 1)], "testcluster"⟩]).2.alloc =
        [("cpu", 0), ("memory", 0)] := by
  decide

/-- `TestAddNamespace` row "Fail due to wrong cluster name". -/
theorem addNamespace_wrong_cluster_row :
    (AddNamespace (NewCluster "testcluster" [] testCapacity) "testnamespace"
        [⟨"testnamespace", [("cpu", 500), ("memory", 1)], "testcluster1"⟩]).1 =
        Except.error "slice does not belong to cluster testcluster" := by
  decide

/-- C5: whenever `Cluster.AddNamespace(ns, slices)` returns an error —
wrong cluster name on a slice, a slice resource key absent from
capacity, capacity exceeded componentwise, or `ns` already present — the
cluster's `alloc` and `allocItems` are exactly what they were before the
call; and a duplicate add of an already-present namespace always fails. -/
theorem C5_add_namespace_error_no_mutation (c : SchedCluster) (ns : String)
    (slices : List Slice) :
    (∀ e, (AddNamespace c ns slices).1 = Except.error e →
      (AddNamespace c ns slices).2.alloc = c.alloc ∧
      (AddNamespace c ns slices).2.allocItems = c.allocItems) ∧
    ((alookup c.allocItems ns).isSome = true →
      ∃ e, (AddNamespace c ns slices).1 = Except.error e) := by
  unfold AddNamespace
  by_cases h1 : slices.any (fun s => s.cluster != c.name) = true
  · simp [h1]
  · rw [Bool.not_eq_true] at h1
    by_cases h2 : slices.any (fun s => s.unit.any (fun p => (alookup c.capacity p.1).isNone)) = true
    · simp [h1, h2]
    · rw [Bool.not_eq_true] at h2
      by_cases h3 : (alookup c.allocItems ns).isSome = true
      · simp [h1, h2, h3]
      · rw [Bool.not_eq_true] at h3
        by_cases h4 : rlLeq (slices.foldl (fun acc s => rlAdd acc s.unit) c.alloc) c.capacity = true
        · simp [h1, h2, h3, h4]
        · rw [Bool.not_eq_true] at h4
          simp [h1, h2, h3, h4]

/-- Witness for C5 at a concrete input: the duplicate-add part of
`TestAddNamespace` — `testnamespace` is already present, the second add
fails, and `alloc` is unchanged. -/
theorem C5_add_namespace_error_no_mutation_witness :
    (∃ e, (AddNamespace
        ⟨"testcluster", [], testCapacity, [("cpu", 500), ("memory", 1)],
          [("testnamespace", [testSlice])]⟩
        "testnamespace" [testSlice]).1 = Except.error e) ∧
      (AddNamespace
        ⟨"testcluster", [], testCapacity, [("cpu", 500), ("memory", 1)],
          [("testnamespace", [testSlice])]⟩
        "testnamespace" [testSlice]).2.alloc = [("cpu", 500), ("memory", 1)] :=
  ⟨(C5_add_namespace_error_no_mutation
      ⟨"testcluster", [], testCapacity, [("cpu", 500), ("memory", 1)],
        [("testnamespace", [testSlice])]⟩
      "testnamespace" [testSlice]).2 (by decide),
   ((C5_add_namespace_error_no_mutation
      ⟨"testcluster", [], testCapacity, [("cpu", 500), ("memory", 1)],
        [("testnamespace", [testSlice])]⟩
      "testnamespace" [testSlice]).1
      "namespace testnamespace is already added" (by decide)).1⟩

/-! ## Namespace DWS reconciler (`pkg/syncer/resources/namespace/dws.go`)

`conversion.*`, `constants.*` values, listers and clients live outside the
analysed file; they are embedded as oracle parameters (`NsDwsEnv`,
`NsDwsState`) describing the observable outcome of each call, and the
mutating API calls issued by the reconciler are recorded as `SuperAction`
values. -/

/-- Modelled from the spec: `constants.LabelUID`, the delegation-UID
annotation key (the constants file is not in the snapshot; the exact
key string is irrelevant to the claims). -/
def LabelUID : String := "tenancy.x-k8s.io/uid"

/-- Modelled from the spec: `constants.DefaultDeletionPolicy`, the
default propagation policy used for namespace deletes. -/
def DefaultDeletionPolicy : String := "Background"

/-- Modelled from the spec: `conversion.ToSuperMasterNamespace(clusterKey,
tenantNs)` — a deterministic derived super namespace name. -/
def toSuperMasterNamespace (clusterKey ns : String) : String :=
  clusterKey ++ "-" ++ ns

/-- The fields of a `v1.Namespace` the reconciler reads: name, its own
`metadata.uid`, and its annotations. -/
structure KNamespace where
  name : String
  uid : String
  annots : List (String × String)
deriving DecidableEq, Repr

/-- `obj.Annotations[k]` (zero value `""` when absent). -/
def getAnnot (o : KNamespace) (k : String) : String :=
  lookupD o.annots k

/-- The observable outcome of an API mutation call (`Create`, `Update`,
`Delete`): success, or an error classified the way `k8s.io/apimachinery`
`errors.IsAlreadyExists` / `errors.IsNotFound` classify it. -/
inductive ApiResult where
  | ok
  | errAlreadyExists
  | errNotFound
  | errOther (msg : String)
deriving DecidableEq, Repr

/-- The `error` return value of the Go client call. -/
def ApiResult.toExcept : ApiResult → Except String Unit
  | ApiResult.ok => Except.ok ()
  | ApiResult.errAlreadyExists => Except.error "already exists"
  | ApiResult.errNotFound => Except.error "not found"
  | ApiResult.errOther m => Except.error m

/-- The outcome of a cache read (`nsLister.Get`,
`MultiClusterController.Get`): found, `IsNotFound`, or another error. -/
inductive CacheLookup (α : Type) where
  | found (a : α)
  | notFound
  | errOther (msg : String)
deriving DecidableEq, Repr

/-- A mutation issued against the super cluster. -/
inductive SuperAction where
  | createNs (p : KNamespace)
  | updateNs (p : KNamespace)
  | deleteNs (name : String) (policy : String) (preconditionUID : String)
deriving DecidableEq, Repr

/-- Oracles for the collaborators the reconciler calls into:
`GetOwnerInfo`, `BuildSuperMasterNamespace`, the super-cluster client's
`Create`/`Update`/`Delete` outcomes, the `SuperClusterPooling` feature
gate, `GetVirtualClusterObject` and `CheckNamespaceEquality`. -/
structure NsDwsEnv where
  ownerInfo : Except String (String × String × String)
  buildSuper : Except String KNamespace
  createResult : ApiResult
  updateResult : ApiResult
  deleteResult : ApiResult
  superClusterPooling : Bool
  vcGet : Except String Unit
  checkNsEquality : Option KNamespace

/-- The two cache reads the top-level `Reconcile` makes. -/
structure NsDwsState where
  pGet : CacheLookup KNamespace
  vGet : CacheLookup KNamespace

/-- A reconcile `Request{ClusterName, Namespace, Name, UID}`. -/
structure Request where
  clusterName : String
  ns : String
  name : String
  uid : String

/-- `reconcileNamespaceCreate`: fetch owner info, build the super
namespace, `POST` it; `AlreadyExists` is treated as success. -/
def reconcileNamespaceCreate (env : NsDwsEnv) : List SuperAction × Except String Unit :=
  match env.ownerInfo with
  | Except.error e => ([], Except.error e)
  | Except.ok _ =>
    match env.buildSuper with
    | Except.error e => ([], Except.error e)
    | Except.ok newObj =>
      match env.createResult with
      | ApiResult.errAlreadyExists => ([SuperAction.createNs newObj], Except.ok ())
      | r => ([SuperAction.createNs newObj], r.toExcept)

/-- `reconcileNamespaceUpdate`: fail on delegation-UID mismatch; under the
`SuperClusterPooling` gate fetch the virtualcluster object, run
`CheckNamespaceEquality` and `PUT` the rewritten namespace if non-nil. -/
def reconcileNamespaceUpdate (env : NsDwsEnv) (targetNamespace requestUID : String)
    (p : KNamespace) : List SuperAction × Except String Unit :=
  if getAnnot p LabelUID ≠ requestUID then
    ([], Except.error ("pNamespace " ++ targetNamespace ++ " exists but its delegated UID is different"))
  else if env.superClusterPooling then
    match env.vcGet with
    | Except.error e => ([], Except.error e)
    | Except.ok _ =>
      match env.checkNsEquality with
      | some updated => ([SuperAction.updateNs updated], env.updateResult.toExcept)
      | none => ([], Except.ok ())
  else ([], Except.ok ())

/-- `reconcileNamespaceRemove`: fail on delegation-UID mismatch; otherwise
`DELETE` the super namespace with the default propagation policy and a
UID precondition built from `pNamespace.UID`; `NotFound` is treated as
success. -/
def reconcileNamespaceRemove (env : NsDwsEnv) (targetNamespace requestUID : String)
    (p : KNamespace) : List SuperAction × Except String Unit :=
  if getAnnot p LabelUID ≠ requestUID then
    ([], Except.error ("to be deleted pNamespace " ++ targetNamespace ++ " delegated UID is different from deleted object"))
  else
    let act := SuperAction.deleteNs targetNamespace DefaultDeletionPolicy p.uid
    match env.deleteResult with
    | ApiResult.errNotFound => ([act], Except.ok ())
    | r => ([act], r.toExcept)

/-- `reconciler.Result` plus the issued super-cluster mutations and the
returned error. -/
structure ReconcileOutput where
  actions : List SuperAction
  result : Except String Unit
  requeue : Bool
deriving DecidableEq, Repr

/-- Wrap a sub-reconcile outcome the way `Reconcile` does: an error sets
`Result{Requeue: true}`. -/
def wrapSubResult (pr : List SuperAction × Except String Unit) : ReconcileOutput :=
  match pr.2 with
  | Except.error e => ⟨pr.1, Except.error e, true⟩
  | Except.ok _ => ⟨pr.1, Except.ok (), false⟩

/-- The namespace DWS `Reconcile(request)`: read the super and tenant
caches, then dispatch on existence (create / remove / update / no-op);
a non-NotFound cache error requeues. -/
def Reconcile (env : NsDwsEnv) (st : NsDwsState) (req : Request) : ReconcileOutput :=
  let targetNamespace := toSuperMasterNamespace req.clusterName req.name
  match st.pGet, st.vGet with
  | CacheLookup.errOther e, _ => ⟨[], Except.error e, true⟩
  | _, CacheLookup.errOther e => ⟨[], Except.error e, true⟩
  | CacheLookup.notFound, CacheLookup.found _ =>
    wrapSubResult (reconcileNamespaceCreate env)
  | CacheLookup.found p, CacheLookup.notFound =>
    wrapSubResult (reconcileNamespaceRemove env targetNamespace req.uid p)
  | CacheLookup.found p, CacheLookup.found _ =>
    wrapSubResult (reconcileNamespaceUpdate env targetNamespace req.uid p)
  | CacheLookup.notFound, CacheLookup.notFound => ⟨[], Except.ok (), false⟩

/-- Counterexample to C1 as stated: in a remove reconcile where the
delegation-UID guard passes (annotation `LabelUID = "v-uid-1"` equals the
request UID), the issued `DELETE` carries the UID precondition
`"p-uid-1"` — the super namespace object's own `metadata.uid` — which
differs from the stored delegation UID `"v-uid-1"`. -/
theorem C1_counterexample :
    (Reconcile
        ⟨Except.ok ("vc", "vc-ns", "vc-uid"), Except.error "unused", ApiResult.ok,
          ApiResult.ok, ApiResult.ok, false, Except.ok (), none⟩
        ⟨CacheLookup.found ⟨"cluster-1-ns-1", "p-uid-1", [(LabelUID, "v-uid-1")]⟩,
          CacheLookup.notFound⟩
        ⟨"cluster-1", "ns-1", "ns-1", "v-uid-1"⟩).actions =
      [SuperAction.deleteNs "cluster-1-ns-1" DefaultDeletionPolicy "p-uid-1"] ∧
    getAnnot ⟨"cluster-1-ns-1", "p-uid-1", [(LabelUID, "v-uid-1")]⟩ LabelUID = "v-uid-1" ∧
    "p-uid-1" ≠ "v-uid-1" := by
  refine ⟨rfl, rfl, ?_⟩
  decide

/-- C1 (amended): for every namespace DWS reconcile in which the tenant
namespace is absent and the super namespace exists with a matching
delegation-UID annotation, the `DELETE` issued to the super cluster uses
the default propagation policy and carries a UID precondition equal to
the SUPER namespace object's own `metadata.uid` (not the delegation UID
stored in the `LabelUID` annotation). -/
theorem C1_amended_delete_precondition (env : NsDwsEnv) (st : NsDwsState)
    (req : Request) (p : KNamespace)
    (hp : st.pGet = CacheLookup.found p)
    (hv : st.vGet = CacheLookup.notFound)
    (huid : getAnnot p LabelUID = req.uid) :
    (Reconcile env st req).actions =
      [SuperAction.deleteNs (toSuperMasterNamespace req.clusterName req.name)
        DefaultDeletionPolicy p.uid] := by
  simp only [Reconcile, hp, hv]
  unfold reconcileNamespaceRemove
  rw [if_neg (by rw [huid]; exact fun h => h rfl)]
  cases env.deleteResult <;> rfl

/-- Witness for C1 (amended) at a concrete input. -/
theorem C1_amended_delete_precondition_witness :
    (Reconcile
        ⟨Except.ok ("vc", "vc-ns", "vc-uid"), Except.error "unused", ApiResult.ok,
          ApiResult.ok, ApiResult.ok, false, Except.ok (), none⟩
        ⟨CacheLookup.found ⟨"c1-default", "super-uid", [(LabelUID, "tenant-uid")]⟩,
          CacheLookup.notFound⟩
        ⟨"c1", "default", "default", "tenant-uid"⟩).actions =
      [SuperAction.deleteNs "c1-default" DefaultDeletionPolicy "super-uid"] := by
  have h := C1_amended_delete_precondition
    ⟨Except.ok ("vc", "vc-ns", "vc-uid"), Except.error "unused", ApiResult.ok,
      ApiResult.ok, ApiResult.ok, false, Except.ok (), none⟩
    ⟨CacheLookup.found ⟨"c1-default", "super-uid", [(LabelUID, "tenant-uid")]⟩,
      CacheLookup.notFound⟩
    ⟨"c1", "default", "default", "tenant-uid"⟩
    ⟨"c1-default", "super-uid", [(LabelUID, "tenant-uid")]⟩ rfl rfl (by decide)
  exact h

/-- C2: for every namespace DWS reconcile in which both sides exist, if
the super namespace's `LabelUID` annotation differs from the request's
tenant UID, the reconcile returns an error whose message contains
"delegated UID is different", and no mutation at all is issued to the
super cluster. -/
theorem C2_update_uid_mismatch (env : NsDwsEnv) (st : NsDwsState) (req : Request)
    (p v : KNamespace)
    (hp : st.pGet = CacheLookup.found p)
    (hv : st.vGet = CacheLookup.found v)
    (huid : getAnnot p LabelUID ≠ req.uid) :
    (∃ pre, (Reconcile env st req).result = Except.error (pre ++ "delegated UID is different")) ∧
    (Reconcile env st req).actions = [] := by
  simp only [Reconcile, hp, hv]
  unfold reconcileNamespaceUpdate
  rw [if_pos huid]
  refine ⟨⟨"pNamespace " ++ toSuperMasterNamespace req.clusterName req.name ++ " exists but its ", ?_⟩, rfl⟩
  show (Except.error _ : Except String Unit) = Except.error _
  simp only [stringAppendAssoc]
  rfl

/-- Witness for C2 at a concrete input. -/
theorem C2_update_uid_mismatch_witness :
    (∃ pre,
      (Reconcile
        ⟨Except.ok ("vc", "vc-ns", "vc-uid"), Except.error "unused", ApiResult.ok,
          ApiResult.ok, ApiResult.ok, true, Except.ok (), none⟩
        ⟨CacheLookup.found ⟨"c1-default", "p-uid", [(LabelUID, "other-uid")]⟩,
          CacheLookup.found ⟨"default", "tenant-uid", []⟩⟩
        ⟨"c1", "default", "default", "tenant-uid"⟩).result =
        Except.error (pre ++ "delegated UID is different")) ∧
    (Reconcile
        ⟨Except.ok ("vc", "vc-ns", "vc-uid"), Except.error "unused", ApiResult.ok,
          ApiResult.ok, ApiResult.ok, true, Except.ok (), none⟩
        ⟨CacheLookup.found ⟨"c1-default", "p-uid", [(LabelUID, "other-uid")]⟩,
          CacheLookup.found ⟨"default", "tenant-uid", []⟩⟩
        ⟨"c1", "default", "default", "tenant-uid"⟩).actions = [] :=
  C2_update_uid_mismatch
    ⟨Except.ok ("vc", "vc-ns", "vc-uid"), Except.error "unused", ApiResult.ok,
      ApiResult.ok, ApiResult.ok, true, Except.ok (), none⟩
    ⟨CacheLookup.found ⟨"c1-default", "p-uid", [(LabelUID, "other-uid")]⟩,
      CacheLookup.found ⟨"default", "tenant-uid", []⟩⟩
    ⟨"c1", "default", "default", "tenant-uid"⟩
    ⟨"c1-default", "p-uid", [(LabelUID, "other-uid")]⟩
    ⟨"default", "tenant-uid", []⟩ rfl rfl (by decide)

/-- C6: in the namespace DWS reconcile, a create whose `POST` fails with
`AlreadyExists` returns nil error, and a delete whose `DELETE` fails with
`NotFound` returns nil error. -/
theorem C6_already_exists_and_not_found_ok (env : NsDwsEnv) (st : NsDwsState)
    (req : Request) (p : KNamespace) (oi : String × String × String)
    (b : KNamespace) :
    (st.pGet = CacheLookup.notFound →
      (∃ v, st.vGet = CacheLookup.found v) →
      env.ownerInfo = Except.ok oi →
      env.buildSuper = Except.ok b →
      env.createResult = ApiResult.errAlreadyExists →
      (Reconcile env st req).result = Except.ok ()) ∧
    (st.pGet = CacheLookup.found p →
      st.vGet = CacheLookup.notFound →
      getAnnot p LabelUID = req.uid →
      env.deleteResult = ApiResult.errNotFound →
      (Reconcile env st req).result = Except.ok ()) := by
  constructor
  · rintro hp ⟨v, hv⟩ hoi hb hc
    simp only [Reconcile, hp, hv]
    unfold reconcileNamespaceCreate
    rw [hoi, hb, hc]
    rfl
  · intro hp hv huid hd
    simp only [Reconcile, hp, hv]
    unfold reconcileNamespaceRemove
    rw [if_neg (by rw [huid]; exact fun h => h rfl), hd]
    rfl

/-- Witness for C6 at concrete inputs (the create half; the delete half
is exercised with the same environment shape). -/
theorem C6_already_exists_and_not_found_ok_witness :
    (Reconcile
        ⟨Except.ok ("vc", "vc-ns", "vc-uid"),
          Except.ok ⟨"c1-default", "", [(LabelUID, "tenant-uid")]⟩,
          ApiResult.errAlreadyExists, ApiResult.ok, ApiResult.errNotFound, false,
          Except.ok (), none⟩
        ⟨CacheLookup.notFound, CacheLookup.found ⟨"default", "tenant-uid", []⟩⟩
        ⟨"c1", "default", "default", "tenant-uid"⟩).result = Except.ok () :=
  (C6_already_exists_and_not_found_ok
    ⟨Except.ok ("vc", "vc-ns", "vc-uid"),
      Except.ok ⟨"c1-default", "", [(LabelUID, "tenant-uid")]⟩,
      ApiResult.errAlreadyExists, ApiResult.ok, ApiResult.errNotFound, false,
      Except.ok (), none⟩
    ⟨CacheLookup.notFound, CacheLookup.found ⟨"default", "tenant-uid", []⟩⟩
    ⟨"c1", "default", "default", "tenant-uid"⟩
    ⟨"unused", "", []⟩ ("vc", "vc-ns", "vc-uid")
    ⟨"c1-default", "", [(LabelUID, "tenant-uid")]⟩).1
    rfl ⟨⟨"default", "tenant-uid", []⟩, rfl⟩ rfl rfl rfl

/-! ## Service patroller (`pkg/syncer/resources/service/checker.go`)

The orphan-deletion pass of `PatrollerDo`: walk the super-cluster
services; for each one whose labels identify a tenant owner
(`conversion.GetVirtualOwner`, modelled as owner fields carried on the
object since the conversion package is outside the snapshot), look up the
tenant counterpart and delete the super service with a UID precondition
when the pair is broken. -/

/-- A super-cluster `v1.Service` as the patroller reads it: namespace,
name, its own `metadata.uid`, annotations, and the virtual-owner
coordinates that `conversion.GetVirtualOwner` extracts from its labels
(modelled as fields; the conversion helper is outside the snapshot). -/
structure PService where
  ns : String
  name : String
  uid : String
  annots : List (String × String)
  ownerCluster : String
  ownerNamespace : String
deriving DecidableEq, Repr

/-- Modelled from the spec: `conversion.GetVirtualOwner(pService)` returns
the owning tenant cluster and tenant namespace recorded in the super
object's labels, or empty strings when the object is unmanaged. -/
def GetVirtualOwner (p : PService) : String × String :=
  (p.ownerCluster, p.ownerNamespace)

/-- A `Delete` issued by the patroller:
`metav1.NewPreconditionDeleteOptions(string(pService.UID))`. -/
structure SvcDeleteOp where
  ns : String
  name : String
  preconditionUID : String
deriving DecidableEq, Repr

/-- One iteration of the `for _, pService := range pServices` loop of
`PatrollerDo`: decide `shouldDelete` and return the issued delete, if
any.  The tenant cache read `MultiClusterController.Get(clusterName,
vNamespace, name)` is the oracle `tget`, returning the tenant service's
UID when found. -/
def servicePatrolStep (tget : String → String → String → CacheLookup String)
    (p : PService) : Option SvcDeleteOp :=
  let owner := GetVirtualOwner p
  if owner.1 = "" ∨ owner.2 = "" then none
  else
    let shouldDelete :=
      match tget owner.1 owner.2 p.name with
      | CacheLookup.notFound => true
      | CacheLookup.found vuid => lookupD p.annots LabelUID ≠ vuid
      | CacheLookup.errOther _ => false
    if shouldDelete then some ⟨p.ns, p.name, p.uid⟩ else none

/-- The deletes issued by the super-cluster half of one `PatrollerDo`
pass over the listed super services. -/
def patrollerServiceDeletes (tget : String → String → String → CacheLookup String)
    (ps : List PService) : List SvcDeleteOp :=
  ps.filterMap (servicePatrolStep tget)

/-- C8: during a service patrol pass, every super service whose labels
identify a tenant owner and whose tenant counterpart is missing from the
tenant cache, or whose `LabelUID` annotation differs from the tenant
service's UID, is deleted with a UID precondition (the super service's
own UID); a service whose pair is intact produces no delete. -/
theorem C8_patrol_deletes_orphans (tget : String → String → String → CacheLookup String)
    (ps : List PService) (p : PService)
    (hmem : p ∈ ps)
    (hc : p.ownerCluster ≠ "")
    (hn : p.ownerNamespace ≠ "") :
    ((tget p.ownerCluster p.ownerNamespace p.name = CacheLookup.notFound ∨
        (∃ vuid, tget p.ownerCluster p.ownerNamespace p.name = CacheLookup.found vuid ∧
          lookupD p.annots LabelUID ≠ vuid)) →
      (⟨p.ns, p.name, p.uid⟩ : SvcDeleteOp) ∈ patrollerServiceDeletes tget ps) ∧
    ((∃ vuid, tget p.ownerCluster p.ownerNamespace p.name = CacheLookup.found vuid ∧
        lookupD p.annots LabelUID = vuid) →
      servicePatrolStep tget p = none) := by
  constructor
  · intro hbroken
    rw [patrollerServiceDeletes, List.mem_filterMap]
    refine ⟨p, hmem, ?_⟩
    simp only [servicePatrolStep, GetVirtualOwner]
    rw [if_neg (by rintro (h | h); exacts [hc h, hn h])]
    rcases hbroken with hnf | ⟨vuid, hfound, hne⟩
    · simp [hnf]
    · simp only [hfound]
      simp [hne]
  · rintro ⟨vuid, hfound, heq⟩
    simp only [servicePatrolStep, GetVirtualOwner]
    rw [if_neg (by rintro (h | h); exacts [hc h, hn h])]
    simp only [hfound]
    simp [heq]

/-- Witness for C8 at a concrete input: an orphaned super service (its
tenant counterpart is gone from the tenant cache) is deleted with its own
UID as the precondition. -/
theorem C8_patrol_deletes_orphans_witness :
    (⟨"c1-default", "svc-1", "p-uid-1"⟩ : SvcDeleteOp) ∈
      patrollerServiceDeletes (fun _ _ _ => CacheLookup.notFound)
        [⟨"c1-default", "svc-1", "p-uid-1", [(LabelUID, "v1")], "t1", "default"⟩] :=
  (C8_patrol_deletes_orphans (fun _ _ _ => CacheLookup.notFound)
    [⟨"c1-default", "svc-1", "p-uid-1", [(LabelUID, "v1")], "t1", "default"⟩]
    ⟨"c1-default", "svc-1", "p-uid-1", [(LabelUID, "v1")], "t1", "default"⟩
    (List.Mem.head _) (by decide) (by decide)).1 (Or.inl rfl)

/-! ## HNC object validator (`internal/validators/object.go`)

`handleInherited` decides admission for objects carrying the
`LabelInheritedFrom` label, for requests that already passed the
excluded-namespace, propagate-mode and HNC-service-account early exits in
`Handle`/`handle`.  `object.Canonical` (which strips HNC
labels/annotations and status) is outside the snapshot; an object's
canonical form is carried as an abstract field. -/

/-- Modelled from the spec: `api.LabelInheritedFrom`, the propagated-object
marker label key (the api package is outside the snapshot; the exact key
string is irrelevant to the claims). -/
def LabelInheritedFrom : String := "app.kubernetes.io/inherited-from"

/-- An admission operation (`k8sadm.Operation`); `connect` stands for any
operation outside the `switch`, hitting its fall-through. -/
inductive AdmOp where
  | create
  | update
  | delete
  | connect
deriving DecidableEq, Repr

/-- An `unstructured.Unstructured` as `handleInherited` reads it: its
namespace and the result of `object.Canonical` on it (HNC labels and
annotations and the status are already stripped from the canonical
form, so the `LabelInheritedFrom` value is **not** part of it). -/
structure AdmObject where
  nsName : String
  canonical : String
deriving DecidableEq, Repr

/-- `admission.Response` with the fields the validator sets: allowed,
status reason and message. -/
structure AdmissionResponse where
  allowed : Bool
  reason : String
  message : String
deriving DecidableEq, Repr

/-- The `allow(msg)` helper. -/
def allowResp (msg : String) : AdmissionResponse := ⟨true, "", msg⟩

/-- The `deny(reason, msg)` helper. -/
def denyResp (reason msg : String) : AdmissionResponse := ⟨false, reason, msg⟩

/-- The outcome of the webhook client's `Get` of a namespace: `NotFound`,
another error, or the namespace with the zero-ness of its
`DeletionTimestamp`. -/
inductive NsClientGet where
  | notFound
  | errOther (msg : String)
  | found (deletionTimestampIsZero : Bool)
deriving DecidableEq, Repr

/-- `isDeletingNS(ctx, ns)`: `NotFound` counts as already deleted; a
non-zero deletion timestamp means the namespace is terminating; any other
client error is wrapped and surfaced. -/
def isDeletingNS (nsGet : String → NsClientGet) (ns : String) : Except String Bool :=
  match nsGet ns with
  | NsClientGet.notFound => Except.ok true
  | NsClientGet.errOther e =>
    Except.error ("while determining whether namespace " ++ ns ++ " is being deleted: " ++ e)
  | NsClientGet.found tsZero => Except.ok (!tsZero)

/-- `handleInherited(ctx, op, newSource, oldSource, inst, oldInst)`:
admission for objects carrying the `LabelInheritedFrom` label, by a
non-HNC-service-account user (the HNC SA is allowed earlier, in
`Handle`). -/
def handleInherited (nsGet : String → NsClientGet) (op : AdmOp)
    (newSource oldSource : String) (inst oldInst : AdmObject) : AdmissionResponse :=
  match op with
  | AdmOp.create =>
    denyResp "Forbidden"
      ("Cannot create objects with the label \"" ++ LabelInheritedFrom ++ "\"")
  | AdmOp.delete =>
    match isDeletingNS nsGet oldInst.nsName with
    | Except.error e =>
      denyResp "InternalError"
        ("Cannot delete object propagated from namespace \"" ++ oldSource ++ "\" with error: " ++ e)
    | Except.ok isDel =>
      if !isDel then
        denyResp "Forbidden"
          ("Cannot delete object propagated from namespace \"" ++ oldSource ++ "\"")
      else allowResp "allowing deletion of propagated object since namespace is being deleted"
  | AdmOp.update =>
    if newSource ≠ oldSource then
      denyResp "Forbidden" ("Cannot modify the label \"" ++ LabelInheritedFrom ++ "\"")
    else if inst.canonical ≠ oldInst.canonical then
      denyResp "Forbidden" ("Cannot modify object propagated from namespace \"" ++ oldSource ++ "\"")
    else allowResp "no illegal updates to propagated object"
  | AdmOp.connect => denyResp "InternalError" "unknown operation: CONNECT"

/-- C7: for admission of an object carrying `LabelInheritedFrom` by a
non-HNC-service-account user: a create is always denied; a delete is
allowed exactly when the object's namespace is terminating (it has a
deletion timestamp, or the namespace is not found); and an update that
changes the `LabelInheritedFrom` value or the object's canonical form is
denied. -/
theorem C7_inherited_objects_protected (nsGet : String → NsClientGet)
    (newSource oldSource : String) (inst oldInst : AdmObject) :
    ((handleInherited nsGet AdmOp.create newSource oldSource inst oldInst).allowed = false) ∧
    ((handleInherited nsGet AdmOp.delete newSource oldSource inst oldInst).allowed = true ↔
      (nsGet oldInst.nsName = NsClientGet.notFound ∨
        nsGet oldInst.nsName = NsClientGet.found false)) ∧
    ((newSource ≠ oldSource ∨ inst.canonical ≠ oldInst.canonical) →
      (handleInherited nsGet AdmOp.update newSource oldSource inst oldInst).allowed = false) := by
  refine ⟨rfl, ?_, ?_⟩
  · unfold handleInherited isDeletingNS
    cases hns : nsGet oldInst.nsName with
    | notFound => simp [allowResp]
    | errOther e => simp [denyResp]
    | found tsZero =>
      cases tsZero with
      | true => simp [denyResp]
      | false => simp [allowResp]
  · intro hchanged
    unfold handleInherited
    rcases hchanged with hsrc | hcanon
    · rw [if_pos hsrc]
      rfl
    · by_cases hsrc : newSource ≠ oldSource
      · rw [if_pos hsrc]
        rfl
      · rw [if_neg hsrc, if_pos hcanon]
        rfl

/-- Witness for C7 at concrete inputs: a delete of a propagated object in
a terminating namespace is allowed, and an update that edits the
canonical form is denied. -/
theorem C7_inherited_objects_protected_witness :
    (handleInherited (fun _ => NsClientGet.found false) AdmOp.delete "" "ns-a"
        ⟨"ns-b", "spec-1"⟩ ⟨"ns-b", "spec-1"⟩).allowed = true ∧
    (handleInherited (fun _ => NsClientGet.found true) AdmOp.update "ns-a" "ns-a"
        ⟨"ns-b", "spec-2"⟩ ⟨"ns-b", "spec-1"⟩).allowed = false :=
  ⟨(C7_inherited_objects_protected (fun _ => NsClientGet.found false) "" "ns-a"
      ⟨"ns-b", "spec-1"⟩ ⟨"ns-b", "spec-1"⟩).2.1.mpr (Or.inr rfl),
   (C7_inherited_objects_protected (fun _ => NsClientGet.found true) "ns-a" "ns-a"
      ⟨"ns-b", "spec-2"⟩ ⟨"ns-b", "spec-1"⟩).2.2 (Or.inr (by decide))⟩

/-- C10: an update of a propagated object by a non-HNC-service-account
user that keeps the `LabelInheritedFrom` value and the canonical form
(which excludes HNC labels/annotations and status) unchanged is allowed —
so status-only updates succeed. -/
theorem C10_benign_update_allowed (nsGet : String → NsClientGet)
    (newSource oldSource : String) (inst oldInst : AdmObject)
    (hsrc : newSource = oldSource)
    (hcanon : inst.canonical = oldInst.canonical) :
    (handleInherited nsGet AdmOp.update newSource oldSource inst oldInst).allowed = true := by
  unfold handleInherited
  rw [if_neg (by rw [hsrc]; exact fun h => h rfl),
    if_neg (by rw [hcanon]; exact fun h => h rfl)]
  rfl

/-- Witness for C10 at a concrete input: a status-only update (canonical
form unchanged, label value unchanged) is allowed. -/
theorem C10_benign_update_allowed_witness :
    (handleInherited (fun _ => NsClientGet.found true) AdmOp.update "ns-a" "ns-a"
        ⟨"ns-b", "spec-1"⟩ ⟨"ns-b", "spec-1"⟩).allowed = true :=
  C10_benign_update_allowed (fun _ => NsClientGet.found true) "ns-a" "ns-a"
    ⟨"ns-b", "spec-1"⟩ ⟨"ns-b", "spec-1"⟩ rfl rfl

end MultiTenancy
